import Mathlib

/-!
Verification of the multi-agent employee virtual assistant provisioning and
runtime lambda functions (directory `employee_assistant_cdk/lambda_functions`).

Each Python lambda module is shallowly embedded as executable Lean
definitions.  The AWS service clients (OpenSearch Serverless, Bedrock Agent,
DynamoDB, S3) are modelled as explicit state / environment records whose
operations follow the documented AWS semantics the code relies on
(e.g. `create_security_policy` raises a ConflictException when a policy of
the same name already exists; `batch_get_collection` returns the details of
the collections that exist).  JSON (de)serialisation at the lambda
request/response boundary is replaced by structured values, except where a
claim is about the byte-level decoding itself (the JWT payload pipeline,
which is embedded down to base64 and a flat-object JSON reader).
-/

namespace Eva

/-- Association-list lookup used to model Python `dict.get`. -/
def dictGet (m : List (String × String)) (k : String) : Option String :=
  (m.find? (fun p => p.1 == k)).map (fun p => p.2)

/-- Python `dict[k] = v` assignment on an association list: replaces the
binding if the key is present, otherwise appends it. -/
def dictPut (m : List (String × String)) (k v : String) : List (String × String) :=
  if m.any (fun p => p.1 == k) then
    m.map (fun p => if p.1 == k then (k, v) else p)
  else
    m ++ [(k, v)]

/-- `dictGet` with a default, modelling Python `dict.get(k, d)`. -/
def dictGetD (m : List (String × String)) (k d : String) : String :=
  match dictGet m k with
  | some v => v
  | none => d

end Eva

namespace Py

/-! Executable models of the Python `str` methods the lambda code uses.
They are defined by structural (fuel-based) recursion over character
lists. -/

/-- Python `str.lower()` (the inputs in this codebase are ASCII). -/
def lower (s : String) : String :=
  String.mk (s.toList.map Char.toLower)

/-- Python `str.startswith(pre)`. -/
def startsWith (s pre : String) : Bool :=
  pre.toList.isPrefixOf s.toList

/-- Worker for `split`: the fuel starts above the input length and each
step consumes at least one character. -/
def splitAux (sep : List Char) : Nat → List Char → List Char → List (List Char)
  | 0, s, acc => [acc.reverse ++ s]
  | fuel + 1, s, acc =>
    match s with
    | [] => [acc.reverse]
    | c :: rest =>
      if !sep.isEmpty && sep.isPrefixOf (c :: rest) then
        acc.reverse :: splitAux sep fuel ((c :: rest).drop sep.length) []
      else
        splitAux sep fuel rest (c :: acc)

/-- Python `str.split(sep)` for a non-empty separator: splits at every
occurrence, keeping empty pieces. -/
def split (s sep : String) : List String :=
  (splitAux sep.toList (s.toList.length + 1) s.toList []).map String.mk

/-- Worker for `replace`. -/
def replaceAux (old new : List Char) : Nat → List Char → List Char
  | 0, s => s
  | fuel + 1, s =>
    match s with
    | [] => []
    | c :: rest =>
      if !old.isEmpty && old.isPrefixOf (c :: rest) then
        new ++ replaceAux old new fuel ((c :: rest).drop old.length)
      else
        c :: replaceAux old new fuel rest

/-- Python `str.replace(old, new)` for a non-empty `old`: replaces every
non-overlapping occurrence, left to right. -/
def replace (s old new : String) : String :=
  String.mk (replaceAux old.toList new.toList (s.toList.length + 1) s.toList)

/-- Python `''.join(f(c) for c in s)`-style character map. -/
def mapChars (f : Char → Char) (s : String) : String :=
  String.mk (s.toList.map f)

end Py

namespace CreateOss

/-! ## `create_oss.py` — OpenSearch Serverless policy and collection setup -/

/-- Errors of the modelled OpenSearch Serverless client.  `conflict` stands
for the AWS `ConflictException` raised when a resource of the requested name
already exists. -/
inductive AwsErr where
  | conflict (msg : String)
  | notFound (msg : String)
  | timeout (msg : String)
deriving Repr, DecidableEq

/-- One OpenSearch Serverless collection as returned by
`batch_get_collection`. -/
structure CollectionRec where
  name : String
  id : String
  arn : String
  status : String
deriving Repr, DecidableEq

/-- State of the modelled `opensearchserverless` client: the security
policies (name and type), the data-access policies, the collections, and a
counter used to mint fresh collection ids. -/
structure AossState where
  secPolicies : List (String × String)
  accessPolicies : List String
  collections : List CollectionRec
  nextId : Nat
deriving Repr, DecidableEq

/-- Modelled `aoss_client.create_security_policy`: AWS raises a
`ConflictException` when a security policy with that name and type already
exists, otherwise the policy is recorded. -/
def create_security_policy (st : AossState) (name policyType : String) :
    Except AwsErr AossState :=
  if st.secPolicies.contains (name, policyType) then
    .error (.conflict ("security policy " ++ name ++ " already exists"))
  else
    .ok { st with secPolicies := st.secPolicies ++ [(name, policyType)] }

/-- Modelled `aoss_client.create_access_policy` (type `data`): raises a
`ConflictException` when an access policy with that name already exists. -/
def create_access_policy (st : AossState) (name : String) :
    Except AwsErr AossState :=
  if st.accessPolicies.contains name then
    .error (.conflict ("access policy " ++ name ++ " already exists"))
  else
    .ok { st with accessPolicies := st.accessPolicies ++ [name] }

/-- Modelled `aoss_client.batch_get_collection(names=[name])`: the
`collectionDetails` list, holding the collections of that name that exist. -/
def batch_get_collection (st : AossState) (name : String) : List CollectionRec :=
  st.collections.filter (fun c => c.name == name)

/-- Modelled `aoss_client.create_collection`: mints a fresh id from the
state counter and records the collection.  Collection creation completes in
the model, so the recorded status is `ACTIVE`. -/
def create_collection (st : AossState) (name : String) : CollectionRec × AossState :=
  let cid := "coll-" ++ toString st.nextId
  let rec_ : CollectionRec :=
    { name := name
      id := cid
      arn := "arn:aws:aoss:collection/" ++ cid
      status := "ACTIVE" }
  (rec_, { st with collections := st.collections ++ [rec_], nextId := st.nextId + 1 })

/-- The `while status == 'CREATING'` poll loop of `create_or_get_collection`,
given bounded fuel (the Python loop has no bound; the model signals a stuck
`CREATING` status as a timeout error instead of diverging). -/
def pollCollectionActive (st : AossState) (name : String) : Nat → Bool
  | 0 => false
  | fuel + 1 =>
    match batch_get_collection st name with
    | c :: _ => if c.status == "CREATING" then pollCollectionActive st name fuel else true
    | [] => false

/-- `create_policies_for_collection` from `create_oss.py` (lines 114-187):
creates the encryption, network and data-access policies for the collection,
in that order, with no pre-existence check.  The policy documents themselves
(rules, principals) do not affect control flow and are not modelled. -/
def create_policies_for_collection (st : AossState)
    (_collection_name enc_policy_name network_policy_name access_policy_name : String)
    (_bedrock_kb_execution_role_arn _account_id : String) :
    Except AwsErr AossState := do
  let st ← create_security_policy st enc_policy_name "encryption"
  let st ← create_security_policy st network_policy_name "network"
  let st ← create_access_policy st access_policy_name
  .ok st

/-- `create_or_get_collection` from `create_oss.py` (lines 189-228): returns
the `(collection_id, collection_arn, host)` triple of the existing
collection of that name, or creates the collection and polls until it
leaves `CREATING`. -/
def create_or_get_collection (st : AossState) (collection_name region_name : String) :
    Except AwsErr ((String × String × String) × AossState) :=
  match batch_get_collection st collection_name with
  | c :: _ =>
    .ok ((c.id, c.arn, c.id ++ "." ++ region_name ++ ".aoss.amazonaws.com"), st)
  | [] =>
    let (c, st') := create_collection st collection_name
    if pollCollectionActive st' collection_name 100 then
      .ok ((c.id, c.arn, c.id ++ "." ++ region_name ++ ".aoss.amazonaws.com"), st')
    else
      .error (.timeout "collection did not leave CREATING")

/-- The provisioning sequence of the `create_oss.py` handler (lines
318-341): `create_policies_for_collection` followed by
`create_or_get_collection`. -/
def provisionSequence (st : AossState)
    (collection_name enc_policy_name network_policy_name access_policy_name
     role_arn account_id region_name : String) :
    Except AwsErr ((String × String × String) × AossState) := do
  let st ← create_policies_for_collection st collection_name enc_policy_name
    network_policy_name access_policy_name role_arn account_id
  create_or_get_collection st collection_name region_name

/-- The empty initial OpenSearch Serverless account state. -/
def aossInit : AossState := { secPolicies := [], accessPolicies := [], collections := [], nextId := 0 }

/-- One knowledge-base configuration entry produced by the `create_oss.py`
handler (lines 285-316) and consumed by `create_knowledge_bases.py`. -/
structure KBConfig where
  name : String
  description : String
  folder : String
  index : String
deriving Repr, DecidableEq

/-- The fixed `knowledge_bases` list of the `create_oss.py` handler
(lines 285-316), parameterised by the deployment `uuid_suffix`.  The long
description strings do not affect control flow and are abbreviated. -/
def knowledgeBasesConfigs (uuid_suffix : String) : List KBConfig :=
  [ { name := "eva_hr_kb_" ++ uuid_suffix
      description := "HR Knowledge Base"
      folder := "hr"
      index := "eva-hr-index-" ++ uuid_suffix },
    { name := "eva_payroll_kb_" ++ uuid_suffix
      description := "Payroll Knowledge Base"
      folder := "payroll"
      index := "eva-payroll-index-" ++ uuid_suffix },
    { name := "eva_benefits_kb_" ++ uuid_suffix
      description := "Benefits Knowledge Base"
      folder := "benefits"
      index := "eva-benefits-index-" ++ uuid_suffix },
    { name := "eva_it_helpdesk_kb_" ++ uuid_suffix
      description := "IT Helpdesk Knowledge Base"
      folder := "it_help_desk"
      index := "eva-it-helpdesk-index-" ++ uuid_suffix },
    { name := "eva_training_kb_" ++ uuid_suffix
      description := "Training Knowledge Base"
      folder := "training"
      index := "eva-training-index-" ++ uuid_suffix } ]

end CreateOss

namespace CreateKb

/-! ## `create_knowledge_bases.py` — knowledge bases, data sources, ingestion -/

open CreateOss (KBConfig knowledgeBasesConfigs)

/-- Calls the modelled Bedrock Agent client makes while
`start_ingestion_job` runs (used to state which API calls happen). -/
inductive KbCall where
  | getKnowledgeBase (kbId : String)
  | startIngestionJob (kbId dsId : String)
  | getIngestionJob (kbId dsId jobId : String)
deriving Repr, DecidableEq

/-- An ingestion job as returned by `start_ingestion_job` /
`get_ingestion_job`. -/
structure IngestionJob where
  ingestionJobId : String
  status : String
deriving Repr, DecidableEq

/-- Environment of the modelled `bedrock-agent` client for
`create_knowledge_bases.py`.  Functions of a `Nat` argument give the outcome
of the n-th call of that kind, modelling the service's evolving state. -/
structure KbEnv where
  /-- Whether the i-th `create_knowledge_base` API call for this KB name
  succeeds. -/
  createKbOk : String → Nat → Bool
  /-- Knowledge-base id assigned on successful creation. -/
  kbIdOf : String → String
  /-- Whether `create_data_source` succeeds for this knowledge base. -/
  dsOk : String → Bool
  /-- Data-source id assigned on successful creation. -/
  dsIdOf : String → String
  /-- Outcome of the i-th `get_knowledge_base` status poll for this KB:
  an error models the API call itself raising. -/
  kbStatus : String → Nat → Except String String
  /-- Whether the `start_ingestion_job` API call succeeds for this KB. -/
  startJobOk : String → Bool
  /-- Ingestion-job id assigned by `start_ingestion_job`. -/
  jobIdOf : String → String
  /-- Status reported by the i-th `get_ingestion_job` poll. -/
  jobStatus : String → Nat → String

/-- The bounded retry loop of `create_knowledge_base`
(`create_knowledge_bases.py` lines 158-185): up to `max_retries` attempts,
raising after the last failure. -/
def createKbAttempts (env : KbEnv) (name : String) : Nat → Nat → Except String String
  | 0, _ => .error ("Failed to create knowledge base " ++ name ++ " after 5 attempts")
  | fuel + 1, attempt =>
    if env.createKbOk name attempt then
      .ok (env.kbIdOf name)
    else
      createKbAttempts env name fuel (attempt + 1)

/-- `create_knowledge_base` from `create_knowledge_bases.py` (lines
122-185) with its default `max_retries=5`. -/
def create_knowledge_base (env : KbEnv) (name : String) : Except String String :=
  createKbAttempts env name 5 0

/-- The data-source name sanitisation of `create_data_source`
(`create_knowledge_bases.py` lines 214-217). -/
def sanitizeDsName (name : String) : String :=
  let valid := Py.mapChars (fun c => if c.isAlphanum || c == '_' || c == '-' then c else '_') name
  if valid ≠ "" && !(valid.toList.headD ' ').isAlphanum then "ds" ++ valid else valid

/-- `create_data_source` from `create_knowledge_bases.py` (lines 187-232):
returns the created data source's id or raises. -/
def create_data_source (env : KbEnv) (kb_id name : String) : Except String String :=
  let _ := sanitizeDsName name
  if env.dsOk kb_id then .ok (env.dsIdOf kb_id) else .error ("create_data_source failed for " ++ kb_id)

/-- The `for i in range(max_kb_checks)` wait loop of `start_ingestion_job`
(`create_knowledge_bases.py` lines 248-270).  Each iteration polls the
knowledge-base status inside a `try`; the `raise` on a terminal
FAILED/DELETING/DELETED status is caught by that iteration's own
`except Exception` clause (line 266), which sleeps and lets the loop
continue, exactly as the Python control flow does.  Returns the calls made
and whether the loop exited via `break` (status ACTIVE). -/
def kbWaitLoop (env : KbEnv) (kb_id : String) : Nat → Nat → List KbCall × Bool
  | 0, _ => ([], false)
  | fuel + 1, i =>
    let call := KbCall.getKnowledgeBase kb_id
    match env.kbStatus kb_id i with
    | .ok status =>
      if status == "ACTIVE" then
        ([call], true)
      else if status == "FAILED" || status == "DELETING" || status == "DELETED" then
        let (rest, broke) := kbWaitLoop env kb_id fuel (i + 1)
        (call :: rest, broke)
      else
        let (rest, broke) := kbWaitLoop env kb_id fuel (i + 1)
        (call :: rest, broke)
    | .error _ =>
      let (rest, broke) := kbWaitLoop env kb_id fuel (i + 1)
      (call :: rest, broke)

/-- The `while check_count < max_checks` monitor loop of
`start_ingestion_job` (`create_knowledge_bases.py` lines 281-297). -/
def jobMonitorLoop (env : KbEnv) (kb_id ds_id : String) (job : IngestionJob) :
    Nat → Nat → List KbCall × IngestionJob
  | 0, _ => ([], job)
  | fuel + 1, checkCount =>
    if checkCount < 5 && job.status != "COMPLETE" then
      let job' : IngestionJob := { job with status := env.jobStatus kb_id checkCount }
      let call := KbCall.getIngestionJob kb_id ds_id job.ingestionJobId
      if job'.status == "COMPLETE" || job'.status == "FAILED" || job'.status == "STOPPED" then
        ([call], job')
      else
        let (rest, final) := jobMonitorLoop env kb_id ds_id job' fuel (checkCount + 1)
        (call :: rest, final)
    else
      ([], job)

/-- `start_ingestion_job` from `create_knowledge_bases.py` (lines 234-306):
waits for the knowledge base to be ready, starts an ingestion job, and
monitors it; any escaping exception is caught at the end and turned into an
`ERROR` job record, so the function never raises. -/
def start_ingestion_job (env : KbEnv) (kb_id ds_id : String) : List KbCall × IngestionJob :=
  let waitCalls := (kbWaitLoop env kb_id 10 0).1
  let startCall := KbCall.startIngestionJob kb_id ds_id
  if env.startJobOk kb_id then
    let job : IngestionJob := { ingestionJobId := env.jobIdOf kb_id, status := "STARTING" }
    let mon := jobMonitorLoop env kb_id ds_id job 5 0
    (waitCalls ++ startCall :: mon.1, mon.2)
  else
    (waitCalls ++ [startCall], { ingestionJobId := "error", status := "ERROR" })

/-- One entry of the handler's `created_kbs` list
(`create_knowledge_bases.py` lines 410-418). -/
structure CreatedKb where
  name : String
  knowledgeBaseId : String
  dataSourceId : String
  ingestionJobId : String
  folder : String
deriving Repr, DecidableEq

/-- The per-config body of the handler loop (`create_knowledge_bases.py`
lines 371-422): index creation (`create_vector_index` always returns True
and never raises, lines 81-120), knowledge base, data source, ingestion.
Any exception is caught at the per-config boundary and the config is
skipped (`none`). -/
def processKbConfig (env : KbEnv) (cfg : KBConfig) : Option CreatedKb :=
  match create_knowledge_base env cfg.name with
  | .error _ => none
  | .ok kbId =>
    match create_data_source env kbId cfg.name with
    | .error _ => none
    | .ok dsId =>
      let job := (start_ingestion_job env kbId dsId).2
      some { name := cfg.name
             knowledgeBaseId := kbId
             dataSourceId := dsId
             ingestionJobId := job.ingestionJobId
             folder := cfg.folder }

/-- The `kb_type` key derivation of the handler's mapping loop
(`create_knowledge_bases.py` lines 428-430): last path segment of the
folder, with `it_help_desk` renamed to `helpdesk`. -/
def kbTypeOf (folder : String) : String :=
  let t := (Py.split folder "/").getLastD ""
  if t == "it_help_desk" then "helpdesk" else t

/-- The handler's `created_kbs` aggregation (lines 369-422): configs whose
processing raised are absent. -/
def createdKbs (env : KbEnv) (configs : List KBConfig) : List CreatedKb :=
  configs.filterMap (processKbConfig env)

/-- The handler's `KNOWLEDGE_BASES` mapping construction
(`create_knowledge_bases.py` lines 424-431). -/
def kbMapping (env : KbEnv) (configs : List KBConfig) : List (String × String) :=
  (createdKbs env configs).foldl
    (fun m kb => Eva.dictPut m (kbTypeOf kb.folder) kb.knowledgeBaseId) []

end CreateKb

namespace CreateAgents

/-! ## `create_agents.py` — supervisor composition (claim C2) -/

/-- Calls the modelled Bedrock Agent client makes during supervisor
composition (used to state ordering properties such as "prepare is never
called"). -/
inductive AgentCall where
  | deleteAgent (agentId : String)
  | createAgent (name : String)
  | associateCollaborator (supervisorId collaboratorName : String)
  | prepareAgent (agentId : String)
  | createAgentAlias (agentId alias_ : String)
deriving Repr, DecidableEq

/-- A specialist-agent configuration entry (only the fields the supervisor
composition reads). -/
structure AgentCfg where
  agent_name : String
deriving Repr, DecidableEq

/-- Environment of the modelled Bedrock Agent client for
`create_agents.py`'s supervisor path. -/
structure AgentEnv where
  /-- `list_agents` result of `check_and_delete_existing_agent`: the id of a
  pre-existing agent of the supervisor's name, if any. -/
  existingAgentId : String → Option String
  /-- Id assigned by `create_agent` for this agent name. -/
  createdIdOf : String → String
  /-- Whether `create_agent` succeeds. -/
  createOk : String → Bool
  /-- Whether `wait_for_agent_status` reaches PREPARED/NOT_PREPARED before
  raising (FAILED status or timeout both raise). -/
  waitStatusOk : String → Bool
  /-- `create_agent_alias_descriptor` result: the collaborator's alias ARN,
  `none` when the agent or its alias cannot be found by listing. -/
  descriptorOf : String → Option String
  /-- Whether `associate_agent_collaborator` succeeds for this collaborator
  name (a failure is caught and merely not counted). -/
  assocOk : String → Bool
  /-- Whether `prepare_agent` plus `wait_for_agent_prepared` succeed. -/
  prepareOk : String → Bool
  /-- Alias id created by `create_agent_alias`. -/
  aliasIdOf : String → String

/-- Python's `needle in haystack` substring test on character lists. -/
def hasSub (needle : List Char) : List Char → Bool
  | [] => needle.isEmpty
  | c :: rest => needle.isPrefixOf (c :: rest) || hasSub needle rest

/-- `get_agent_type` from `create_agents.py` (lines 725-739): substring
checks against the lowercased agent name. -/
def get_agent_type (agent_name : String) : Option String :=
  let l := (Py.lower agent_name).toList
  if hasSub "hr".toList l then some "hr"
  else if hasSub "payroll".toList l then some "payroll"
  else if hasSub "benefits".toList l then some "benefits"
  else if hasSub "helpdesk".toList l then some "helpdesk"
  else if hasSub "training".toList l then some "training"
  else if hasSub "search".toList l then some "search"
  else none

/-- The per-collaborator body of the `for agent in agents` loop of
`add_collaborators_to_supervisor` (`create_agents.py` lines 798-824):
returns the calls made and the increment (1 on a successful association,
0 otherwise). -/
def collaboratorStep (env : AgentEnv) (supervisor_id : String)
    (created_agents : List (String × (String × String))) (agent : AgentCfg) :
    List AgentCall × Nat :=
  if created_agents.any (fun p => p.1 == agent.agent_name) then
    match env.descriptorOf agent.agent_name with
    | some _ =>
      let call := AgentCall.associateCollaborator supervisor_id agent.agent_name
      if env.assocOk agent.agent_name then ([call], 1) else ([call], 0)
    | none => ([], 0)
  else ([], 0)

/-- The collaborator count `add_collaborators_to_supervisor` accumulates
over the agent list. -/
def collaboratorCount (env : AgentEnv) (supervisor_id : String)
    (created_agents : List (String × (String × String))) (agents : List AgentCfg) : Nat :=
  (agents.map (fun a => (collaboratorStep env supervisor_id created_agents a).2)).sum

/-- `add_collaborators_to_supervisor` from `create_agents.py` (lines
777-830): associates each successfully created specialist as a collaborator
and raises when zero collaborators were added. -/
def add_collaborators_to_supervisor (env : AgentEnv) (supervisor_id : String)
    (created_agents : List (String × (String × String))) (agents : List AgentCfg) :
    List AgentCall × Except String Nat :=
  let calls := agents.flatMap (fun a => (collaboratorStep env supervisor_id created_agents a).1)
  let count := collaboratorCount env supervisor_id created_agents agents
  if count == 0 then
    (calls, .error "No collaborators were added to the supervisor agent. Cannot proceed with preparation.")
  else
    (calls, .ok count)

/-- One attempt of the `for attempt in range(max_retries)` loop of
`create_supervisor_agent` (`create_agents.py` lines 444-497): delete any
pre-existing agent of the same name, create the supervisor, wait for a
valid status, add collaborators, prepare, create the alias.  Returns the
client calls made, and the `(agent_id, agent_alias_id)` result or the
raised error. -/
def supervisorAttempt (env : AgentEnv) (agent_name : String)
    (created_agents : List (String × (String × String))) (agents : List AgentCfg) :
    List AgentCall × Except String (String × String) :=
  let deleteCalls :=
    match env.existingAgentId agent_name with
    | some oldId => [AgentCall.deleteAgent oldId]
    | none => []
  if !(env.createOk agent_name) then
    (deleteCalls ++ [AgentCall.createAgent agent_name], .error "create_agent failed")
  else
    let agent_id := env.createdIdOf agent_name
    let createCalls := deleteCalls ++ [AgentCall.createAgent agent_name]
    if !(env.waitStatusOk agent_id) then
      (createCalls, .error ("Timed out waiting for agent with ID " ++ agent_id))
    else
      let (collabCalls, collabRes) :=
        add_collaborators_to_supervisor env agent_id created_agents agents
      match collabRes with
      | .error e => (createCalls ++ collabCalls, .error e)
      | .ok _ =>
        let prepCalls := createCalls ++ collabCalls ++ [AgentCall.prepareAgent agent_id]
        if !(env.prepareOk agent_id) then
          (prepCalls, .error ("Agent with ID " ++ agent_id ++ " preparation failed."))
        else
          let alias_ := agent_name ++ "_alias"
          (prepCalls ++ [AgentCall.createAgentAlias agent_id alias_],
           .ok (agent_id, env.aliasIdOf agent_name))

end CreateAgents

namespace Jwt

/-! ## JWT payload decoding pipeline (`extract_user_details`)

The function appears verbatim in `invoke_agent.py` (lines 132-209) and
`get_conversation_messages.py` (lines 103-176); it is embedded once here.
Bytes are modelled as `Nat` values below 256. -/

/-- Index of a character in the standard base64 alphabet
(`A-Za-z0-9+/`), `none` for everything else. -/
def b64IndexStd (c : Char) : Option Nat :=
  if 65 ≤ c.toNat && c.toNat ≤ 90 then some (c.toNat - 65)
  else if 97 ≤ c.toNat && c.toNat ≤ 122 then some (c.toNat - 97 + 26)
  else if 48 ≤ c.toNat && c.toNat ≤ 57 then some (c.toNat - 48 + 52)
  else if c == '+' then some 62
  else if c == '/' then some 63
  else none

/-- Character of a 6-bit value in the URL-safe base64 alphabet
(`A-Za-z0-9-_`). -/
def b64UrlChar (n : Nat) : Char :=
  if n < 26 then Char.ofNat (65 + n)
  else if n < 52 then Char.ofNat (97 + (n - 26))
  else if n < 62 then Char.ofNat (48 + (n - 52))
  else if n == 62 then '-'
  else '_'

/-- Splits a byte list into 6-bit groups (base64 encoding direction). -/
def toSextets : List Nat → List Nat
  | [] => []
  | [b1] => [b1 / 4, b1 % 4 * 16]
  | [b1, b2] => [b1 / 4, b1 % 4 * 16 + b2 / 16, b2 % 16 * 4]
  | b1 :: b2 :: b3 :: rest =>
    b1 / 4 :: (b1 % 4 * 16 + b2 / 16) :: (b2 % 16 * 4 + b3 / 64) :: b3 % 64 :: toSextets rest

/-- Unpadded base64url encoding of a byte list (how a JWT payload segment
is produced by its issuer; used to state claim C6's input). -/
def base64UrlEncodeNoPad (bytes : List Nat) : String :=
  String.mk ((toSextets bytes).map b64UrlChar)

/-- Reassembles bytes from 6-bit groups; a trailing single group is a
padding error. -/
def decodeQuads : List Nat → Except String (List Nat)
  | [] => .ok []
  | [_] => .error "Invalid base64-encoded string"
  | [a, b] => .ok [a * 4 + b / 16]
  | [a, b, c] => .ok [a * 4 + b / 16, b % 16 * 16 + c / 4]
  | a :: b :: c :: d :: rest => do
    let tail ← decodeQuads rest
    .ok ((a * 4 + b / 16) :: (b % 16 * 16 + c / 4) :: (c % 4 * 64 + d) :: tail)

/-- Model of Python `base64.b64decode` with its default `validate=False`:
characters outside the standard alphabet (including `=` and the URL-safe
`-`/`_`) are discarded before decoding; a leftover group of one 6-bit
character is a padding error. -/
def b64decode (s : String) : Except String (List Nat) :=
  decodeQuads (s.toList.filterMap b64IndexStd)

/-- Modelled subset of `bytes.decode('utf-8')`: the payloads this pipeline
accepts are ASCII; any byte outside the ASCII range is treated as a decode
failure. -/
def asciiDecode (bytes : List Nat) : Except String String :=
  if bytes.all (fun b => b < 128) then .ok (String.mk (bytes.map Char.ofNat))
  else .error "decode error"

/-- Reads one JSON string literal (no escape sequences — a backslash makes
the parse fail) and returns it with the remaining input. -/
def parseStringLit : List Char → Option (String × List Char)
  | '"' :: rest =>
    let content := rest.takeWhile (fun c => c ≠ '"')
    if content.contains '\\' then none
    else
      match rest.drop content.length with
      | '"' :: rest2 => some (String.mk content, rest2)
      | _ => none
  | _ => none

/-- Reads the `"key":"value"` pairs of a flat JSON object after its opening
brace, up to and including the closing brace. -/
def parsePairs : Nat → List Char → Option (List (String × String))
  | 0, _ => none
  | fuel + 1, cs => do
    let (k, cs1) ← parseStringLit cs
    match cs1 with
    | ':' :: cs2 => do
      let (v, cs3) ← parseStringLit cs2
      match cs3 with
      | ',' :: cs4 => do
        let rest ← parsePairs fuel cs4
        some ((k, v) :: rest)
      | ['}'] => some [(k, v)]
      | _ => none
    | _ => none

/-- Modelled subset of Python `json.loads` sufficient for Cognito JWT
payloads: a flat object whose keys and values are escape-free strings, with
no surrounding whitespace.  Every other input fails to parse (in the code a
`json.loads` failure is caught and mapped to the anonymous identity). -/
def jsonLoadsFlat (s : String) : Option (List (String × String)) :=
  match s.toList with
  | '{' :: rest => if rest == ['}'] then some [] else parsePairs (rest.length + 1) rest
  | _ => none

/-- The identity triple returned by `extract_user_details`. -/
structure UserDetails where
  userId : String
  username : String
  email : String
deriving Repr, DecidableEq

/-- The anonymous identity triple. -/
def anonymousUser : UserDetails :=
  { userId := "anonymous", username := "anonymous", email := "anonymous" }

/-- Python `a or b` on header-lookup results (`None` and the empty string
are falsy). -/
def pyOr (a b : Option String) : Option String :=
  match a with
  | some s => if s == "" then b else some s
  | none => b

/-- The payload-segment decoding steps of `extract_user_details` (lines
174-180 of `invoke_agent.py`): re-pad, base64-decode, byte-decode, JSON
parse.  `none` stands for any of those raising. -/
def decodePayloadClaims (payload : String) : Option (List (String × String)) :=
  let padding := 4 - payload.length % 4
  let payload := if padding != 4 then payload ++ String.mk (List.replicate padding '=') else payload
  match b64decode payload with
  | .error _ => none
  | .ok bytes =>
    match asciiDecode bytes with
    | .error _ => none
    | .ok str => jsonLoadsFlat str

/-- The claim-extraction pipeline of `extract_user_details`: each of the
function's early `return`-anonymous paths is a `none` here. -/
def tokenClaims (headers : List (String × String)) : Option (List (String × String)) :=
  match pyOr (Eva.dictGet headers "Authorization") (Eva.dictGet headers "authorization") with
  | none => none
  | some a =>
    if a == "" || !(Py.startsWith a "Bearer ") then none
    else
      let token := ((Py.split a " ").drop 1).headD ""
      let parts := Py.split token "."
      if parts.length != 3 then none
      else decodePayloadClaims ((parts.drop 1).headD "")

/-- `extract_user_details` (identical in `invoke_agent.py` lines 132-209
and `get_conversation_messages.py` lines 103-176): pulls the bearer token
out of the `Authorization` header, base64-decodes its payload segment after
re-padding, parses the JSON claims and reads `sub`, `cognito:username` and
`email`; every failure path (each early `return` of the anonymous dict in
the Python code, i.e. every `none` of `tokenClaims`) yields the anonymous
identity. -/
def extract_user_details (headers : List (String × String)) : UserDetails :=
  match tokenClaims headers with
  | none => anonymousUser
  | some decoded =>
    { userId := Eva.dictGetD decoded "sub" "anonymous"
      username := Eva.dictGetD decoded "cognito:username" "anonymous"
      email := Eva.dictGetD decoded "email" "anonymous" }

end Jwt

namespace InvokeAgent

/-! ## `invoke_agent.py` — retried runtime invocation (claims C5, C8) -/

open Jwt (UserDetails extract_user_details)

/-- Outcome of one `invoke_agent` attempt: either the stream completes with
the listed output chunks and rationale steps, or it raises after streaming
some chunks/steps. -/
inductive AttemptOutcome where
  | ok (chunks : List String) (steps : List String)
  | fail (chunks : List String) (steps : List String) (msg : String)
deriving Repr, DecidableEq

/-- Environment of the runtime handler: the conversation-table name (as in
`os.environ.get('CONVERSATION_TABLE')`), the outcome of each invocation
attempt, and the session id minted when the request has none. -/
structure InvokeEnv where
  table : Option String
  attempts : Nat → AttemptOutcome
  freshSessionId : String

/-- A Conversation Turn item as written by `save_conversation`
(`invoke_agent.py` lines 240-252).  The uuid `messageId` and wall-clock
`timestamp` attributes carry no information the claims touch and are not
modelled. -/
structure ConvItem where
  userId : String
  sessionId : String
  userQuery : String
  response : String
  thinkingSteps : List String
deriving Repr, DecidableEq

/-- `save_conversation` from `invoke_agent.py` (lines 211-256): one
`put_item` appended to the table, skipped when `CONVERSATION_TABLE` is not
set; its own failures are swallowed. -/
def save_conversation (env : InvokeEnv) (user : UserDetails)
    (session_id user_query response : String) (thinking_steps : List String)
    (db : List ConvItem) : List ConvItem :=
  match env.table with
  | none => db
  | some _ =>
    db ++ [{ userId := user.userId
             sessionId := session_id
             userQuery := user_query
             response := response
             thinkingSteps := thinking_steps }]

/-- The handler's response (the JSON body fields, structurally). -/
inductive InvokeResult where
  | ok (response : String) (thinkingSteps : List String) (sessionId : String)
  | badRequest (msg : String)
  | failed (msg : String)
deriving Repr, DecidableEq

/-- HTTP status code of a handler response. -/
def statusCodeOf : InvokeResult → Nat
  | .ok _ _ _ => 200
  | .badRequest _ => 400
  | .failed _ => 500

/-- The `while attempt < max_retries` loop of the handler
(`invoke_agent.py` lines 62-114).  `full_response` and `thinking_steps`
are threaded through retries without being reset, exactly as in the code,
where they are initialised once before the loop; chunks streamed by a
failing attempt have already been appended when the exception is caught.
The fuel argument equals `max_retries - attempt`. -/
def invokeLoop (env : InvokeEnv) (user : UserDetails) (session_id input_text : String) :
    Nat → Nat → String → List String → List ConvItem → InvokeResult × List ConvItem
  | 0, _, fullResponse, thinkingSteps, db =>
    (.ok fullResponse thinkingSteps session_id, db)
  | fuel + 1, attempt, fullResponse, thinkingSteps, db =>
    match env.attempts attempt with
    | .ok chunks steps =>
      let fullResponse := fullResponse ++ String.join chunks
      let thinkingSteps := thinkingSteps ++ steps
      let db := save_conversation env user session_id input_text fullResponse thinkingSteps db
      (.ok fullResponse thinkingSteps session_id, db)
    | .fail chunks steps msg =>
      let fullResponse := fullResponse ++ String.join chunks
      let thinkingSteps := thinkingSteps ++ steps
      let attempt' := attempt + 1
      if 5 ≤ attempt' then
        (.failed ("Failed after 5 attempts: " ++ msg), db)
      else
        invokeLoop env user session_id input_text fuel attempt' fullResponse thinkingSteps db

/-- The request event of the runtime handler (its parsed JSON body plus the
headers `extract_user_details` reads). -/
structure InvokeEvent where
  headers : List (String × String)
  message : Option String
  sessionId : Option String

/-- The `invoke_agent.py` handler (lines 15-130): validate the message,
extract the caller identity, then run the retry loop with
`max_retries = 5`.  Returns the response and the conversation table
contents. -/
def invoke_handler (env : InvokeEnv) (ev : InvokeEvent) (db : List ConvItem) :
    InvokeResult × List ConvItem :=
  let session_id := match ev.sessionId with | some s => s | none => env.freshSessionId
  let user := extract_user_details ev.headers
  match ev.message with
  | none => (.badRequest "Message is required", db)
  | some t =>
    if t == "" then (.badRequest "Message is required", db)
    else invokeLoop env user session_id t 5 0 "" [] db

end InvokeAgent

namespace ProcessUpload

/-! ## `process_upload.py` — ingestion trigger (claim C7) -/

/-- One record of the S3 event notification. -/
structure S3Record where
  bucket : String
  key : String
deriving Repr, DecidableEq

/-- Environment of the ingestion trigger: the parsed `KNOWLEDGE_BASES`
mapping from the environment variable, and the `list_data_sources` result
per knowledge base. -/
structure TriggerEnv where
  knowledgeBases : List (String × String)
  dataSources : String → List String

/-- The per-record body of the `for record in event['Records']` loop
(`process_upload.py` lines 28-81): derives the folder from the key, maps it
to a knowledge base, looks up its first data source, and starts one
ingestion job; every skip (`continue`) and every caught exception yields no
job for the record.  Returns the `(knowledgeBaseId, dataSourceId)` pairs of
the ingestion jobs started for the record. -/
def processRecord (env : TriggerEnv) (r : S3Record) : List (String × String) :=
  let path_parts := Py.split r.key "/"
  if path_parts.length < 2 then []
  else
    let folder := Py.lower (path_parts.headD "")
    let folder := if folder == "it_helpdesk" then "helpdesk" else folder
    match Eva.dictGet env.knowledgeBases folder with
    | none => []
    | some kb_id =>
      if kb_id == "" then []
      else
        match env.dataSources kb_id with
        | [] => []
        | ds_id :: _ => [(kb_id, ds_id)]

/-- The `process_upload.py` handler (lines 10-86): processes every record
independently and always returns a 200 result.  The second component lists
the ingestion jobs started, in order. -/
def upload_trigger_handler (env : TriggerEnv) (records : List S3Record) :
    (Nat × String) × List (String × String) :=
  ((200, "Processing complete"), records.flatMap (processRecord env))

end ProcessUpload

namespace UploadFiles

/-! ## `upload_files.py` — validated file upload (claim C9) -/

/-- One entry of the request body's `files` array. -/
structure UploadFile where
  name : String
  content : String
  ftype : String
deriving Repr, DecidableEq

/-- The parsed request body of the upload handler. -/
structure UploadBody where
  folder : String
  files : List UploadFile
deriving Repr, DecidableEq

/-- The upload request event: `none` models an event with no `body` key. -/
structure UploadEvent where
  body : Option UploadBody
deriving Repr, DecidableEq

/-- An object written to the bucket by `put_object`. -/
structure S3Write where
  key : String
  bytes : List Nat
deriving Repr, DecidableEq

/-- Characters matched by the pattern's `[\w\-. ]` class, restricted to
ASCII (Python's `\w` additionally matches non-ASCII word characters, which
these file names do not use). -/
def wordClassChar (c : Char) : Bool :=
  c.isAlphanum || c == '_' || c == '-' || c == '.' || c == ' '

/-- Whether `stem ++ "." ++ ext` matches with a nonempty in-class stem,
for one extension alternative (already lowercased input suffix check). -/
def stemExtMatch (cs : List Char) (ext : String) : Bool :=
  let extChars := ('.' :: ext.toList)
  let n := cs.length
  let k := extChars.length
  k ≤ n &&
    ((cs.drop (n - k)).map Char.toLower == extChars) &&
    (n - k ≠ 0) &&
    (cs.take (n - k)).all wordClassChar

/-- Python `re.match(r'^[\w\-. ]+\.(pdf|doc|docx)$', name, re.IGNORECASE)`
from `upload_files.py` line 66.  In Python, `$` also matches just before a
single trailing newline, which this model reproduces. -/
def matchesUploadPattern (name : String) : Bool :=
  let core := fun (cs : List Char) =>
    stemExtMatch cs "pdf" || stemExtMatch cs "doc" || stemExtMatch cs "docx"
  let cs := name.toList
  core cs || (cs.getLast? == some '\n' && core (cs.dropLast))

/-- The allowed folder list (`upload_files.py` line 49). -/
def allowedFolders : List String := ["hr", "it_helpdesk", "benefits", "payroll", "training"]

/-- The folder normalisation of `upload_files.py` line 41:
`body.get('folder', '').lower().replace(' ', '_')`. -/
def normalizeFolder (s : String) : String :=
  Py.replace (Py.lower s) " " "_"

/-- The per-file body of the upload loop (`upload_files.py` lines 58-91):
name validation, base64 decoding of the content after the `base64,` marker,
then the `put_object` call; any failure skips the file.  Returns the write
performed (if any) and the name appended to `uploaded_files`. -/
def processFile (folder : String) (f : UploadFile) : Option (S3Write × String) :=
  let content_b64 := ((Py.split f.content "base64,").getLastD "")
  if !(matchesUploadPattern f.name) then none
  else
    match Jwt.b64decode content_b64 with
    | .error _ => none
    | .ok bytes => some ({ key := folder ++ "/" ++ f.name, bytes := bytes }, f.name)

/-- Response of the upload handler (the body's success flag is determined
by the status code and is not duplicated). -/
structure UploadResponse where
  statusCode : Nat
  message : String
deriving Repr, DecidableEq

/-- The `upload_files.py` handler (lines 14-113): folder normalisation and
validation, per-file processing, 400 when nothing was uploaded.  Returns
the response and the list of objects written to the bucket. -/
def upload_handler (ev : UploadEvent) : UploadResponse × List S3Write :=
  match ev.body with
  | none => ({ statusCode := 400, message := "Malformed request from API Gateway" }, [])
  | some body =>
    let folder := normalizeFolder body.folder
    if folder == "" then
      ({ statusCode := 400, message := "Folder name is required" }, [])
    else if !(allowedFolders.contains folder) then
      ({ statusCode := 400, message := "Invalid folder name" }, [])
    else if body.files.isEmpty then
      ({ statusCode := 400, message := "No files provided" }, [])
    else
      let results := body.files.filterMap (processFile folder)
      let writes := results.map (fun p => p.1)
      let uploaded := results.map (fun p => p.2)
      if uploaded.isEmpty then
        ({ statusCode := 400, message := "No valid files were uploaded" }, writes)
      else
        ({ statusCode := 200,
           message := "Successfully uploaded " ++ toString uploaded.length ++ " files to " ++ folder },
         writes)

end UploadFiles

namespace GetMessages

/-! ## `get_conversation_messages.py` — by-session retrieval (claim C10) -/

open Jwt (extract_user_details)

/-- One message as formatted for the frontend
(`get_conversation_messages.py` lines 86-91). -/
structure MsgOut where
  timestamp : String
  userQuery : String
  response : String
  thinkingSteps : List String
deriving Repr, DecidableEq

/-- A stored conversation item as the query returns it (the modelled
`ConvItem` plus the timestamp attribute the formatter reads). -/
structure StoredItem where
  userId : String
  sessionId : String
  timestamp : String
  userQuery : String
  response : String
  thinkingSteps : List String
deriving Repr, DecidableEq

/-- Environment of the retrieval handler: the table name and the table
contents. -/
structure MessagesEnv where
  table : Option String
  items : List StoredItem

/-- The request event of the retrieval handler. -/
structure MessagesEvent where
  headers : List (String × String)
  pathParameters : List (String × String)
deriving Repr, DecidableEq

/-- The handler's response: the status code and the `messages` list (empty
on error responses). -/
structure MessagesResponse where
  statusCode : Nat
  messages : List MsgOut
deriving Repr, DecidableEq

/-- The formatter of lines 86-91. -/
def formatItem (it : StoredItem) : MsgOut :=
  { timestamp := it.timestamp
    userQuery := it.userQuery
    response := it.response
    thinkingSteps := it.thinkingSteps }

/-- The GSI query of lines 51-59 (with the line 63-72 scan fallback, which
filters by the same `sessionId` condition and therefore returns the same
items in the model): items of the session, in stored order. -/
def queryBySession (env : MessagesEnv) (session_id : String) : List StoredItem :=
  env.items.filter (fun it => it.sessionId == session_id)

/-- The `get_conversation_messages.py` handler (lines 11-101): extract the
caller identity, validate the session id, query the items and keep only the
caller's own, formatted for the frontend. -/
def messages_handler (env : MessagesEnv) (ev : MessagesEvent) : MessagesResponse :=
  let user := extract_user_details ev.headers
  match Eva.dictGet ev.pathParameters "sessionId" with
  | none => { statusCode := 400, messages := [] }
  | some session_id =>
    if session_id == "" then { statusCode := 400, messages := [] }
    else
      match env.table with
      | none => { statusCode := 500, messages := [] }
      | some _ =>
        let items := queryBySession env session_id
        let messages := (items.filter (fun it => it.userId == user.userId)).map formatItem
        { statusCode := 200, messages := messages }

end GetMessages

/-! ## Claim-support definitions -/

namespace CreateOss

/-- First run of the provisioning sequence from an empty account, with the
handler's name scheme for suffix `00000`. -/
def c1FirstRun : Except AwsErr ((String × String × String) × AossState) :=
  provisionSequence aossInit "eva-collection-00000" "eva-encryption-policy-00000"
    "eva-network-policy-00000" "eva-access-policy-00000" "role-arn" "123456789012" "us-east-1"

/-- Second run of the provisioning sequence with the same name inputs,
starting from the state the successful first run left behind. -/
def c1SecondRun : Except AwsErr ((String × String × String) × AossState) :=
  match c1FirstRun with
  | .ok (_, st1) =>
    provisionSequence st1 "eva-collection-00000" "eva-encryption-policy-00000"
      "eva-network-policy-00000" "eva-access-policy-00000" "role-arn" "123456789012" "us-east-1"
  | .error e => .error e

/-- Whether an `Except` result is an already-exists conflict. -/
def isConflict : Except AwsErr ((String × String × String) × AossState) → Bool
  | .error (.conflict _) => true
  | _ => false

end CreateOss

namespace CreateKb

/-- A concrete environment in which every `create_knowledge_base` API call
fails (used to witness claim C3). -/
def c3Env : KbEnv :=
  { createKbOk := fun _ _ => false
    kbIdOf := fun n => "kb-" ++ n
    dsOk := fun _ => true
    dsIdOf := fun _ => "ds-1"
    kbStatus := fun _ _ => .ok "ACTIVE"
    startJobOk := fun _ => true
    jobIdOf := fun _ => "job-1"
    jobStatus := fun _ _ => "COMPLETE" }

/-- A concrete environment in which every knowledge-base status poll
reports the terminal FAILED state (used to witness claim C4). -/
def c4Env : KbEnv :=
  { createKbOk := fun _ _ => true
    kbIdOf := fun n => "kb-" ++ n
    dsOk := fun _ => true
    dsIdOf := fun _ => "ds-1"
    kbStatus := fun _ _ => .ok "FAILED"
    startJobOk := fun _ => true
    jobIdOf := fun _ => "job-1"
    jobStatus := fun _ _ => "IN_PROGRESS" }

end CreateKb

namespace CreateAgents

/-- A concrete environment in which no collaborator descriptor can be
resolved, so zero collaborators get associated. -/
def c2Env : AgentEnv :=
  { existingAgentId := fun _ => none
    createdIdOf := fun _ => "SUPID"
    createOk := fun _ => true
    waitStatusOk := fun _ => true
    descriptorOf := fun _ => none
    assocOk := fun _ => true
    prepareOk := fun _ => true
    aliasIdOf := fun _ => "ALIASID" }

end CreateAgents

namespace InvokeAgent

/-- Whether an attempt outcome is a raised error. -/
def attemptFails : AttemptOutcome → Bool
  | .ok _ _ => false
  | .fail _ _ _ => true

/-- The chunks an attempt streamed (all of them for a successful attempt,
the ones before the exception for a failing one). -/
def chunksOf : AttemptOutcome → List String
  | .ok c _ => c
  | .fail c _ _ => c

/-- The rationale steps an attempt streamed. -/
def stepsOf : AttemptOutcome → List String
  | .ok _ s => s
  | .fail _ s _ => s

/-- All chunks streamed by attempts `a, a+1, ..., a+n-1`, in order. -/
def rangeChunks (env : InvokeEnv) (a n : Nat) : List String :=
  (List.range' a n).flatMap (fun i => chunksOf (env.attempts i))

/-- All rationale steps streamed by attempts `a, a+1, ..., a+n-1`. -/
def rangeSteps (env : InvokeEnv) (a n : Nat) : List String :=
  (List.range' a n).flatMap (fun i => stepsOf (env.attempts i))

/-- A concrete runtime environment whose first attempt streams a partial
chunk and then raises, and whose second attempt succeeds. -/
def c5Env : InvokeEnv :=
  { table := some "ConversationTable"
    attempts := fun i =>
      if i == 0 then .fail ["Hel"] ["thinking about it"] "throttled"
      else .ok ["lo"] ["answering"]
    freshSessionId := "sess-1" }

/-- A concrete runtime environment whose every attempt raises. -/
def c5FailEnv : InvokeEnv :=
  { table := some "ConversationTable"
    attempts := fun _ => .fail [] [] "throttled"
    freshSessionId := "sess-1" }

/-- The request event used to witness the runtime-handler claims. -/
def c5Event : InvokeEvent :=
  { headers := []
    message := some "What is the leave policy?"
    sessionId := some "sess-9" }

end InvokeAgent

namespace Jwt

/-- The failure condition of the `extract_user_details` pipeline: the
`Authorization` header is missing or empty, is not a bearer token, the
token does not have three dot-separated segments, or the payload segment
does not survive base64 decoding, byte decoding and JSON parsing — i.e.
one of the function's early anonymous returns is taken. -/
def authFailure (headers : List (String × String)) : Bool :=
  (tokenClaims headers).isNone

/-- The JWT payload of claim C6. -/
def c6Payload : String := "\x7b\"sub\":\"u1\",\"cognito:username\":\"alice\",\"email\":\"a@x.com\"\x7d"

/-- A bearer token whose unpadded base64url payload segment encodes
`c6Payload` (header and signature segments are opaque to the code). -/
def c6Token : String :=
  "hdr." ++ base64UrlEncodeNoPad (c6Payload.toList.map Char.toNat) ++ ".sig"

end Jwt

namespace ProcessUpload

/-- A concrete trigger environment: `hr` maps to knowledge base `KB1`,
which has one data source `DS1`. -/
def c7Env : TriggerEnv :=
  { knowledgeBases := [("hr", "KB1")]
    dataSources := fun kb => if kb == "KB1" then ["DS1"] else [] }

end ProcessUpload

namespace UploadFiles

/-- A valid PDF upload entry (content `ABC` after base64). -/
def c9GoodFile : UploadFile :=
  { name := "policy.pdf", content := "data:application/pdf;base64,QUJD", ftype := "application/pdf" }

/-- An upload entry with a disallowed extension. -/
def c9BadFile : UploadFile :=
  { name := "malware.exe", content := "QUJD", ftype := "" }

/-- A concrete upload request with one valid and one invalid file. -/
def c9Event : UploadEvent :=
  { body := some { folder := "HR", files := [c9GoodFile, c9BadFile] } }

/-- A concrete upload request none of whose files passes name validation. -/
def c9BadEvent : UploadEvent :=
  { body := some { folder := "HR", files := [c9BadFile] } }

end UploadFiles

namespace GetMessages

/-- A concrete store holding two items of the same session written by two
different users. -/
def c10Env : MessagesEnv :=
  { table := some "ConversationTable"
    items := [ { userId := "u1", sessionId := "sess-9", timestamp := "t1",
                 userQuery := "q1", response := "r1", thinkingSteps := [] },
               { userId := "u2", sessionId := "sess-9", timestamp := "t2",
                 userQuery := "q2", response := "r2", thinkingSteps := [] } ] }

/-- A concrete retrieval request for session `sess-9` with no bearer token
(the caller is the anonymous identity). -/
def c10Event : MessagesEvent :=
  { headers := [], pathParameters := [("sessionId", "sess-9")] }

end GetMessages

/-! ## Theorems -/

namespace CreateOss

theorem create_security_policy_ok {st st' : AossState} {n t : String}
    (h : create_security_policy st n t = .ok st') :
    st.secPolicies.contains (n, t) = false ∧
    st' = { st with secPolicies := st.secPolicies ++ [(n, t)] } := by
  unfold create_security_policy at h
  split at h
  · exact absurd h (by simp)
  · exact ⟨by simp_all, (Except.ok.inj h).symm⟩

theorem create_access_policy_ok {st st' : AossState} {n : String}
    (h : create_access_policy st n = .ok st') :
    st.accessPolicies.contains n = false ∧
    st' = { st with accessPolicies := st.accessPolicies ++ [n] } := by
  unfold create_access_policy at h
  split at h
  · exact absurd h (by simp)
  · exact ⟨by simp_all, (Except.ok.inj h).symm⟩

theorem create_policies_ok {st st' : AossState} {c e n a r acct : String}
    (h : create_policies_for_collection st c e n a r acct = .ok st') :
    st' = { st with secPolicies := st.secPolicies ++ [(e, "encryption"), (n, "network")],
                    accessPolicies := st.accessPolicies ++ [a] } ∧
    st.secPolicies.contains (e, "encryption") = false := by
  unfold create_policies_for_collection at h
  rcases h1 : create_security_policy st e "encryption" with e1 | st1 <;>
    rw [h1] at h <;> simp only [Bind.bind, Except.bind] at h
  · exact Except.noConfusion h
  rcases h2 : create_security_policy st1 n "network" with e2 | st2 <;>
    rw [h2] at h <;> simp only [Bind.bind, Except.bind] at h
  · exact Except.noConfusion h
  rcases h3 : create_access_policy st2 a with e3 | st3 <;>
    rw [h3] at h <;> simp only [Bind.bind, Except.bind] at h
  · exact Except.noConfusion h
  obtain ⟨hc1, hst1⟩ := create_security_policy_ok h1
  obtain ⟨_, hst2⟩ := create_security_policy_ok h2
  obtain ⟨_, hst3⟩ := create_access_policy_ok h3
  have hst' : st3 = st' := Except.ok.inj h
  subst hst1 hst2 hst3 hst'
  exact ⟨by simp, hc1⟩

theorem create_or_get_preserves {st st' : AossState} {cname region : String}
    {trip : String × String × String}
    (h : create_or_get_collection st cname region = .ok (trip, st')) :
    st'.secPolicies = st.secPolicies ∧ st'.accessPolicies = st.accessPolicies := by
  unfold create_or_get_collection at h
  rcases hb : batch_get_collection st cname with _ | ⟨c, rest⟩ <;> rw [hb] at h
  · simp only [create_collection] at h
    split at h
    · have hpair := Except.ok.inj h
      rw [Prod.mk.injEq] at hpair
      obtain ⟨_, hst⟩ := hpair
      rw [← hst]
      exact ⟨rfl, rfl⟩
    · exact absurd h (by simp)
  · have hpair := Except.ok.inj h
    rw [Prod.mk.injEq] at hpair
    obtain ⟨_, hst⟩ := hpair
    rw [← hst]
    exact ⟨rfl, rfl⟩

theorem create_or_get_stable {st st' : AossState} {cname region cid carn host : String}
    (h : create_or_get_collection st cname region = .ok ((cid, carn, host), st')) :
    create_or_get_collection st' cname region = .ok ((cid, carn, host), st') := by
  unfold create_or_get_collection at h ⊢
  rcases hb : batch_get_collection st cname with _ | ⟨c, rest⟩ <;> rw [hb] at h
  · simp only [create_collection] at h
    split at h
    · have hpair := Except.ok.inj h
      rw [Prod.mk.injEq] at hpair
      obtain ⟨htrip, hst⟩ := hpair
      have hbatch : batch_get_collection st' cname =
          [{ name := cname, id := "coll-" ++ toString st.nextId,
             arn := "arn:aws:aoss:collection/" ++ ("coll-" ++ toString st.nextId),
             status := "ACTIVE" }] := by
        rw [← hst]
        simp only [batch_get_collection] at hb ⊢
        simp [List.filter_append, hb]
      rw [hbatch, ← htrip]
    · exact absurd h (by simp)
  · have hpair := Except.ok.inj h
    rw [Prod.mk.injEq] at hpair
    obtain ⟨htrip, hst⟩ := hpair
    subst hst
    rw [hb]
    simp [htrip]

/-- C1, amended: starting from a state where the full provisioning
sequence succeeded, re-running `create_or_get_collection` alone returns the
same `(collection_id, collection_arn, host)` triple without error, but
re-running the full sequence (`create_policies_for_collection` first)
raises an already-exists conflict, because the policies are created without
a pre-existence check. -/
theorem C1_amended_idempotence (st st' : AossState)
    (cname ename nname aname role acct region cid carn host : String)
    (h : provisionSequence st cname ename nname aname role acct region =
      .ok ((cid, carn, host), st')) :
    create_or_get_collection st' cname region = .ok ((cid, carn, host), st') ∧
    isConflict (provisionSequence st' cname ename nname aname role acct region) = true := by
  unfold provisionSequence at h
  rcases hp : create_policies_for_collection st cname ename nname aname role acct
    with e0 | st3 <;> rw [hp] at h <;> simp only [Bind.bind, Except.bind] at h
  · exact Except.noConfusion h
  obtain ⟨hst3, _⟩ := create_policies_ok hp
  refine ⟨create_or_get_stable h, ?_⟩
  have hsec : st'.secPolicies = st3.secPolicies := (create_or_get_preserves h).1
  have hmem : st'.secPolicies.contains (ename, "encryption") = true := by
    rw [hsec, hst3]
    simp
  have hcsp : create_security_policy st' ename "encryption" =
      .error (.conflict ("security policy " ++ ename ++ " already exists")) := by
    unfold create_security_policy
    rw [hmem]
    simp
  unfold provisionSequence create_policies_for_collection
  rw [hcsp]
  simp [isConflict, Bind.bind, Except.bind]

/-- C1 witness for the amended theorem: the concrete first run from an
empty account succeeds, and the amended theorem applies to it. -/
theorem C1_amended_idempotence_witness :
    create_or_get_collection
        { secPolicies := [("eva-encryption-policy-00000", "encryption"),
                          ("eva-network-policy-00000", "network")],
          accessPolicies := ["eva-access-policy-00000"],
          collections := [{ name := "eva-collection-00000", id := "coll-0",
                            arn := "arn:aws:aoss:collection/coll-0", status := "ACTIVE" }],
          nextId := 1 } "eva-collection-00000" "us-east-1" =
      .ok (("coll-0", "arn:aws:aoss:collection/coll-0",
            "coll-0.us-east-1.aoss.amazonaws.com"),
        { secPolicies := [("eva-encryption-policy-00000", "encryption"),
                          ("eva-network-policy-00000", "network")],
          accessPolicies := ["eva-access-policy-00000"],
          collections := [{ name := "eva-collection-00000", id := "coll-0",
                            arn := "arn:aws:aoss:collection/coll-0", status := "ACTIVE" }],
          nextId := 1 }) := by
  exact (C1_amended_idempotence aossInit _ "eva-collection-00000" "eva-encryption-policy-00000"
    "eva-network-policy-00000" "eva-access-policy-00000" "role-arn" "123456789012" "us-east-1"
    "coll-0" "arn:aws:aoss:collection/coll-0" "coll-0.us-east-1.aoss.amazonaws.com"
    (by rfl)).1

/-- C1 counterexample: with the concrete names of a deployment with suffix
`00000`, the first provisioning run from an empty account succeeds, and the
second run of the same sequence with the same name inputs raises an
already-exists conflict (in `create_policies_for_collection`), contradicting
the claim that the second run does not raise an "already exists" error. -/
theorem C1_counterexample :
    c1FirstRun.isOk = true ∧ isConflict c1SecondRun = true := by
  decide

end CreateOss

namespace CreateAgents

theorem collaboratorStep_no_prepare (env : AgentEnv) (sup : String)
    (created : List (String × (String × String))) (a : AgentCfg) (aid : String) :
    AgentCall.prepareAgent aid ∉ (collaboratorStep env sup created a).1 := by
  unfold collaboratorStep
  split
  · split
    · split <;> simp
    · simp
  · simp

/-- C2: during one supervisor-composition attempt, if the
collaborator-association phase counts zero successfully associated
collaborators, the attempt raises an error and `prepare_agent` is never
called on any agent. -/
theorem C2_no_prepare_without_collaborators (env : AgentEnv) (agent_name : String)
    (created_agents : List (String × (String × String))) (agents : List AgentCfg)
    (h : collaboratorCount env (env.createdIdOf agent_name) created_agents agents = 0) :
    (∃ e, (supervisorAttempt env agent_name created_agents agents).2 = .error e) ∧
    ∀ aid, AgentCall.prepareAgent aid ∉ (supervisorAttempt env agent_name created_agents agents).1 := by
  have hdel : ∀ aid, AgentCall.prepareAgent aid ∉
      (match env.existingAgentId agent_name with
       | some oldId => [AgentCall.deleteAgent oldId]
       | none => []) := by
    intro aid
    cases env.existingAgentId agent_name <;> simp
  unfold supervisorAttempt
  by_cases hc : env.createOk agent_name
  · by_cases hw : env.waitStatusOk (env.createdIdOf agent_name)
    · simp only [add_collaborators_to_supervisor, hc, hw, h, Bool.not_true, Bool.false_eq_true,
        if_false, beq_self_eq_true, if_true]
      constructor
      · exact ⟨_, rfl⟩
      · intro aid
        simp only [List.mem_append, List.mem_flatMap]
        rintro (⟨hmem | hmem⟩ | ⟨a, _, hmem⟩)
        · exact hdel aid hmem
        · simp at hmem
        · exact collaboratorStep_no_prepare env _ created_agents a aid hmem
    · simp only [hc, hw, Bool.not_true, Bool.not_false, Bool.false_eq_true, if_false, if_true]
      refine ⟨⟨_, rfl⟩, ?_⟩
      intro aid
      simp only [List.mem_append]
      rintro (hmem | hmem)
      · exact hdel aid hmem
      · simp at hmem
  · simp only [hc, Bool.not_false, if_true]
    refine ⟨⟨_, rfl⟩, ?_⟩
    intro aid
    simp only [List.mem_append]
    rintro (hmem | hmem)
    · exact hdel aid hmem
    · simp at hmem

/-- C2 witness: a concrete composition attempt in which no collaborator
descriptor resolves, so zero collaborators are associated. -/
theorem C2_witness :
    (∃ e, (supervisorAttempt c2Env "eva_supervisor" [] [{ agent_name := "eva_hr_agent" }]).2 = .error e) ∧
    ∀ aid, AgentCall.prepareAgent aid ∉
      (supervisorAttempt c2Env "eva_supervisor" [] [{ agent_name := "eva_hr_agent" }]).1 :=
  C2_no_prepare_without_collaborators c2Env "eva_supervisor" [] [{ agent_name := "eva_hr_agent" }] (by rfl)

end CreateAgents

namespace CreateKb

theorem createKbAttempts_all_fail (env : KbEnv) (name : String) :
    ∀ fuel attempt, (∀ i, attempt ≤ i → i < attempt + fuel → env.createKbOk name i = false) →
    createKbAttempts env name fuel attempt =
      .error ("Failed to create knowledge base " ++ name ++ " after 5 attempts") := by
  intro fuel
  induction fuel with
  | zero => intro attempt _; rfl
  | succ n ih =>
    intro attempt h
    unfold createKbAttempts
    rw [h attempt (Nat.le_refl _) (by omega)]
    simpa using ih (attempt + 1) (fun i h1 h2 => h i (by omega) (by omega))

theorem create_kb_fails {env : KbEnv} {name : String}
    (h : ∀ i, i < 5 → env.createKbOk name i = false) :
    create_knowledge_base env name =
      .error ("Failed to create knowledge base " ++ name ++ " after 5 attempts") :=
  createKbAttempts_all_fail env name 5 0 (fun i _ h2 => h i (by omega))

theorem processKbConfig_fail {env : KbEnv} {cfg : CreateOss.KBConfig}
    (h : ∀ i, i < 5 → env.createKbOk cfg.name i = false) :
    processKbConfig env cfg = none := by
  unfold processKbConfig
  rw [create_kb_fails h]

theorem createdKbs_mem {env : KbEnv} {l : List CreateOss.KBConfig} {kb : CreatedKb}
    (h : kb ∈ createdKbs env l) :
    ∃ c ∈ l, processKbConfig env c = some kb ∧ kb.folder = c.folder := by
  unfold createdKbs at h
  rw [List.mem_filterMap] at h
  obtain ⟨c, hc, hp⟩ := h
  refine ⟨c, hc, hp, ?_⟩
  unfold processKbConfig at hp
  split at hp
  · exact Option.noConfusion hp
  · split at hp
    · exact Option.noConfusion hp
    · rw [← Option.some.inj hp]

theorem createdKbs_filter (env : KbEnv) (p : CreateOss.KBConfig → Bool) :
    ∀ l : List CreateOss.KBConfig,
    (∀ c ∈ l, p c = false → processKbConfig env c = none) →
    createdKbs env (l.filter p) = createdKbs env l := by
  intro l
  induction l with
  | nil => intro _; rfl
  | cons c t ih =>
    intro h
    have ht := ih (fun c' hc' => h c' (List.mem_cons_of_mem _ hc'))
    cases hp : p c
    · have hn : processKbConfig env c = none := h c (List.mem_cons_self _ _) hp
      simp [createdKbs, List.filter_cons, hp, List.filterMap_cons, hn] at ht ⊢
      exact ht
    · simp [createdKbs, List.filter_cons, hp, List.filterMap_cons] at ht ⊢
      cases processKbConfig env c <;> simp [ht]

theorem dictPut_mem {m : List (String × String)} {k v : String} {kv : String × String}
    (h : kv ∈ Eva.dictPut m k v) : kv ∈ m ∨ kv.1 = k := by
  unfold Eva.dictPut at h
  split at h
  · rw [List.mem_map] at h
    obtain ⟨p, hp, heq⟩ := h
    by_cases hk : (p.1 == k) = true
    · right
      rw [← heq]
      simp [hk]
    · left
      rw [← heq]
      simp only [Bool.not_eq_true] at hk
      simp [hk]
      exact hp
  · rw [List.mem_append] at h
    rcases h with h | h
    · exact .inl h
    · right
      simp only [List.mem_singleton] at h
      rw [h]

theorem foldl_dictPut_keys :
    ∀ (kbs : List CreatedKb) (acc : List (String × String)) (kv : String × String),
    kv ∈ kbs.foldl (fun m kb => Eva.dictPut m (kbTypeOf kb.folder) kb.knowledgeBaseId) acc →
    kv ∈ acc ∨ ∃ kb ∈ kbs, kv.1 = kbTypeOf kb.folder := by
  intro kbs
  induction kbs with
  | nil => intro acc kv h; exact .inl h
  | cons kb t ih =>
    intro acc kv h
    rcases ih _ kv h with hacc | ⟨kb', h1, h2⟩
    · rcases dictPut_mem hacc with hm | hk
      · exact .inl hm
      · exact .inr ⟨kb, List.mem_cons_self _ _, hk⟩
    · exact .inr ⟨kb', List.mem_cons_of_mem _ h1, h2⟩

theorem kbMapping_keys {env : KbEnv} {l : List CreateOss.KBConfig} {kv : String × String}
    (h : kv ∈ kbMapping env l) : ∃ kb ∈ createdKbs env l, kv.1 = kbTypeOf kb.folder := by
  unfold kbMapping at h
  rcases foldl_dictPut_keys _ _ _ h with hacc | hk
  · exact absurd hacc (List.not_mem_nil _)
  · exact hk

/-- C3: for every domain configuration in the fixed knowledge-base list, if
knowledge-base creation for that domain fails all of its 5 attempts, the
final domain-to-knowledge-base-id mapping does not contain that domain's
key, and the whole mapping equals the one computed with that domain removed
from the input list. -/
theorem C3_failed_domain_absent (env : KbEnv) (suffix : String) (cfg : CreateOss.KBConfig)
    (hmem : cfg ∈ CreateOss.knowledgeBasesConfigs suffix)
    (hfail : ∀ i, i < 5 → env.createKbOk cfg.name i = false) :
    Eva.dictGet (kbMapping env (CreateOss.knowledgeBasesConfigs suffix)) (kbTypeOf cfg.folder) = none ∧
    kbMapping env (CreateOss.knowledgeBasesConfigs suffix) =
      kbMapping env ((CreateOss.knowledgeBasesConfigs suffix).filter
        (fun c => c.folder != cfg.folder)) := by
  have hnone : processKbConfig env cfg = none := processKbConfig_fail hfail
  have hfilter : (∀ c ∈ CreateOss.knowledgeBasesConfigs suffix,
      (c.folder != cfg.folder) = false → processKbConfig env c = none) := by
    intro c hc hpc
    simp only [bne, Bool.not_eq_false', beq_iff_eq] at hpc
    simp only [CreateOss.knowledgeBasesConfigs, List.mem_cons, List.not_mem_nil, or_false] at hmem hc
    rcases hmem with h1 | h1 | h1 | h1 | h1 <;> rcases hc with h2 | h2 | h2 | h2 | h2 <;>
      subst h1 <;> subst h2 <;> first
        | exact hnone
        | (dsimp only at hpc; exact absurd hpc (by decide))
  have hkeys : ∀ kv ∈ kbMapping env (CreateOss.knowledgeBasesConfigs suffix),
      (kv.1 == kbTypeOf cfg.folder) = false := by
    intro kv hkv
    obtain ⟨kb, hkb, hkey⟩ := kbMapping_keys hkv
    obtain ⟨c, hc, hp, hfold⟩ := createdKbs_mem hkb
    simp only [CreateOss.knowledgeBasesConfigs, List.mem_cons, List.not_mem_nil, or_false] at hmem hc
    rw [beq_eq_false_iff_ne, hkey, hfold]
    rcases hmem with h1 | h1 | h1 | h1 | h1 <;> rcases hc with h2 | h2 | h2 | h2 | h2 <;>
      subst h1 <;> subst h2 <;> first
        | (exfalso; rw [hnone] at hp; exact Option.noConfusion hp)
        | (dsimp only; decide)
  constructor
  · unfold Eva.dictGet
    have hfind : (kbMapping env (CreateOss.knowledgeBasesConfigs suffix)).find?
        (fun p => p.1 == kbTypeOf cfg.folder) = none := by
      rw [List.find?_eq_none]
      intro kv hkv
      rw [hkeys kv hkv]
      exact Bool.false_ne_true
    rw [hfind]
    rfl
  · unfold kbMapping
    rw [createdKbs_filter env _ _ hfilter]

/-- C3 witness: with suffix `00000`, an environment in which every
`create_knowledge_base` call fails, applied to the `hr` domain. -/
theorem C3_witness :
    Eva.dictGet (kbMapping c3Env (CreateOss.knowledgeBasesConfigs "00000"))
      (kbTypeOf "hr") = none ∧
    kbMapping c3Env (CreateOss.knowledgeBasesConfigs "00000") =
      kbMapping c3Env ((CreateOss.knowledgeBasesConfigs "00000").filter
        (fun c => c.folder != "hr")) :=
  C3_failed_domain_absent c3Env "00000"
    { name := "eva_hr_kb_00000", description := "HR Knowledge Base",
      folder := "hr", index := "eva-hr-index-00000" }
    (by decide) (fun i _ => rfl)

theorem kbWaitLoop_no_break (env : KbEnv) (kb : String)
    (h : ∀ i, env.kbStatus kb i = .ok "FAILED") :
    ∀ fuel i, (kbWaitLoop env kb fuel i).2 = false := by
  intro fuel
  induction fuel with
  | zero => intro i; rfl
  | succ n ih =>
    intro i
    unfold kbWaitLoop
    rw [h i]
    simpa using ih (i + 1)

/-- C4: when every knowledge-base status poll observes the terminal FAILED
state, the wait loop never sees the knowledge base ready (it never breaks
on ACTIVE) — the `raise` for the invalid state is swallowed by the same
iteration's own `except` clause — and `start_ingestion_job` nevertheless
goes on to issue the `start_ingestion_job` API call for that knowledge
base.  This contradicts the claim that a terminal state is fatal for the
domain: the claim matches the code's evident intent (it logs the state as
an error and raises), so the swallowed raise is a code bug. -/
theorem C4_terminal_state_still_ingests (env : KbEnv) (kb ds : String)
    (h : ∀ i, env.kbStatus kb i = .ok "FAILED") :
    (kbWaitLoop env kb 10 0).2 = false ∧
    KbCall.startIngestionJob kb ds ∈ (start_ingestion_job env kb ds).1 := by
  refine ⟨kbWaitLoop_no_break env kb h 10 0, ?_⟩
  unfold start_ingestion_job
  by_cases hs : env.startJobOk kb <;> simp [hs]

/-- C4 witness: the concrete environment whose status polls always report
FAILED. -/
theorem C4_witness :
    (kbWaitLoop c4Env "KB1" 10 0).2 = false ∧
    KbCall.startIngestionJob "KB1" "DS1" ∈ (start_ingestion_job c4Env "KB1" "DS1").1 :=
  C4_terminal_state_still_ingests c4Env "KB1" "DS1" (fun _ => rfl)

end CreateKb

namespace InvokeAgent

theorem joinAppend (a b : List String) :
    String.join (a ++ b) = String.join a ++ String.join b := by
  rw [String.join_eq, String.join_eq, String.join_eq, List.map_append, List.flatten_append]
  rfl

theorem invokeLoop_ok_spec (env : InvokeEnv) (u : Jwt.UserDetails) (sid t : String)
    {k : Nat} {c s : List String} (hk : env.attempts k = .ok c s) :
    ∀ fuel attempt fr ts db, attempt + fuel = 5 → attempt ≤ k → k < 5 →
    (∀ i, attempt ≤ i → i < k → attemptFails (env.attempts i) = true) →
    invokeLoop env u sid t fuel attempt fr ts db =
      (.ok (fr ++ String.join (rangeChunks env attempt (k - attempt) ++ c))
           (ts ++ (rangeSteps env attempt (k - attempt) ++ s)) sid,
       save_conversation env u sid t
         (fr ++ String.join (rangeChunks env attempt (k - attempt) ++ c))
         (ts ++ (rangeSteps env attempt (k - attempt) ++ s)) db) := by
  intro fuel
  induction fuel with
  | zero => intro attempt fr ts db h5 hak hk5 _; omega
  | succ n ih =>
    intro attempt fr ts db h5 hak hk5 hf
    rcases Nat.eq_or_lt_of_le hak with heq | hlt
    · subst heq
      unfold invokeLoop
      rw [hk]
      simp [Nat.sub_self, rangeChunks, rangeSteps]
    · have hfa : attemptFails (env.attempts attempt) = true := hf attempt (Nat.le_refl _) hlt
      cases ha : env.attempts attempt with
      | ok c' s' => rw [ha] at hfa; exact absurd hfa (by simp [attemptFails])
      | fail pc ps m =>
        unfold invokeLoop
        rw [ha]
        dsimp only
        rw [if_neg (by omega : ¬ (5 ≤ attempt + 1))]
        rw [ih (attempt + 1) (fr ++ String.join pc) (ts ++ ps) db (by omega) (by omega) hk5
          (fun i h1 h2 => hf i (by omega) h2)]
        have hrange : k - attempt = (k - (attempt + 1)) + 1 := by omega
        have hR : rangeChunks env attempt (k - attempt) =
            pc ++ rangeChunks env (attempt + 1) (k - (attempt + 1)) := by
          rw [rangeChunks, hrange, List.range'_succ, List.flatMap_cons, ha]
          rfl
        have hS : rangeSteps env attempt (k - attempt) =
            ps ++ rangeSteps env (attempt + 1) (k - (attempt + 1)) := by
          rw [rangeSteps, hrange, List.range'_succ, List.flatMap_cons, ha]
          rfl
        rw [hR, hS]
        simp [joinAppend, String.append_assoc, List.append_assoc]

theorem invokeLoop_all_fail (env : InvokeEnv) (u : Jwt.UserDetails) (sid t : String) :
    ∀ fuel attempt fr ts db, attempt + fuel = 5 → 0 < fuel →
    (∀ i, attempt ≤ i → i < 5 → attemptFails (env.attempts i) = true) →
    ∃ msg, invokeLoop env u sid t fuel attempt fr ts db = (.failed msg, db) := by
  intro fuel
  induction fuel with
  | zero => intro attempt fr ts db h5 h0 _; omega
  | succ n ih =>
    intro attempt fr ts db h5 _ hf
    have hfa : attemptFails (env.attempts attempt) = true := hf attempt (Nat.le_refl _) (by omega)
    cases ha : env.attempts attempt with
    | ok c' s' => rw [ha] at hfa; exact absurd hfa (by simp [attemptFails])
    | fail pc ps m =>
      unfold invokeLoop
      rw [ha]
      dsimp only
      by_cases h51 : 5 ≤ attempt + 1
      · rw [if_pos h51]
        exact ⟨_, rfl⟩
      · rw [if_neg h51]
        exact ih (attempt + 1) _ _ db (by omega) (by omega) (fun i h1 h2 => hf i (by omega) h2)

/-- C5: with a non-empty message and a configured conversation table, if
the first `k < 5` attempts raise and attempt `k` succeeds, the handler
returns a 200 response and exactly one Conversation Turn is appended to the
store (a single put, from the successful attempt); and if all 5 attempts
raise, the store is unchanged and a 500 error response is returned. -/
theorem C5_retry_write_discipline :
    (∀ (env : InvokeEnv) (ev : InvokeEvent) (db : List ConvItem) (m : String)
       (k : Nat) (c s : List String),
      env.table.isSome = true → ev.message = some m → m ≠ "" → k < 5 →
      (∀ i, i < k → attemptFails (env.attempts i) = true) → env.attempts k = .ok c s →
      statusCodeOf (invoke_handler env ev db).1 = 200 ∧
      ∃ it, (invoke_handler env ev db).2 = db ++ [it]) ∧
    (∀ (env : InvokeEnv) (ev : InvokeEvent) (db : List ConvItem) (m : String),
      ev.message = some m → m ≠ "" →
      (∀ i, i < 5 → attemptFails (env.attempts i) = true) →
      statusCodeOf (invoke_handler env ev db).1 = 500 ∧ (invoke_handler env ev db).2 = db) := by
  constructor
  · intro env ev db m k c s htbl hm hne hk5 hf hok
    have hbeq : (m == "") = false := by simpa using hne
    unfold invoke_handler
    simp only [hm, hbeq, Bool.false_eq_true, if_false]
    rw [invokeLoop_ok_spec env _ _ _ hok 5 0 "" [] db (by omega) (by omega) hk5
      (fun i _ h2 => hf i h2)]
    refine ⟨rfl, ?_⟩
    unfold save_conversation
    cases htb : env.table with
    | none => rw [htb] at htbl; exact absurd htbl (by simp)
    | some tbl => exact ⟨_, rfl⟩
  · intro env ev db m hm hne hf
    have hbeq : (m == "") = false := by simpa using hne
    unfold invoke_handler
    simp only [hm, hbeq, Bool.false_eq_true, if_false]
    obtain ⟨msg, hloop⟩ := invokeLoop_all_fail env _ _ _ 5 0 "" [] db (by omega) (by omega)
      (fun i _ h2 => hf i h2)
    rw [hloop]
    exact ⟨rfl, rfl⟩

/-- C5 witness: one failing attempt, then a successful one; and the
all-fail environment. -/
theorem C5_retry_write_discipline_witness :
    (statusCodeOf (invoke_handler c5Env c5Event []).1 = 200 ∧
      ∃ it, (invoke_handler c5Env c5Event []).2 = [] ++ [it]) ∧
    (statusCodeOf (invoke_handler c5FailEnv c5Event []).1 = 500 ∧
      (invoke_handler c5FailEnv c5Event []).2 = []) := by
  constructor
  · exact C5_retry_write_discipline.1 c5Env c5Event [] "What is the leave policy?" 1 ["lo"]
      ["answering"] rfl rfl (by decide) (by omega)
      (fun i hi => by
        have h0 : i = 0 := by omega
        subst h0
        rfl) rfl
  · exact C5_retry_write_discipline.2 c5FailEnv c5Event [] "What is the leave policy?" rfl
      (by decide) (fun i _ => rfl)

/-- C8: the accumulated answer text and trace list are initialised once and
never reset between attempts: when the first `k` attempts stream partial
chunks and raise and attempt `k` succeeds, the returned response text is
the concatenation of all chunks of the failed attempts followed by the
successful attempt's chunks (and likewise for the trace list), and the
persisted Conversation Turn carries the same accumulated values. -/
theorem C8_partial_chunks_accumulate (env : InvokeEnv) (ev : InvokeEvent)
    (db : List ConvItem) (m tbl : String) (k : Nat) (c s : List String)
    (htbl : env.table = some tbl) (hm : ev.message = some m) (hne : m ≠ "")
    (hk5 : k < 5) (hf : ∀ i, i < k → attemptFails (env.attempts i) = true)
    (hok : env.attempts k = .ok c s) :
    (invoke_handler env ev db).1 =
      .ok (String.join (rangeChunks env 0 k ++ c)) (rangeSteps env 0 k ++ s)
        (match ev.sessionId with | some sid => sid | none => env.freshSessionId) ∧
    (invoke_handler env ev db).2 = db ++
      [{ userId := (Jwt.extract_user_details ev.headers).userId
         sessionId := match ev.sessionId with | some sid => sid | none => env.freshSessionId
         userQuery := m
         response := String.join (rangeChunks env 0 k ++ c)
         thinkingSteps := rangeSteps env 0 k ++ s }] := by
  have hbeq : (m == "") = false := by simpa using hne
  unfold invoke_handler
  simp only [hm, hbeq, Bool.false_eq_true, if_false]
  rw [invokeLoop_ok_spec env _ _ _ hok 5 0 "" [] db (by omega) (by omega) hk5
    (fun i _ h2 => hf i h2)]
  unfold save_conversation
  rw [htbl]
  constructor
  · simp
  · simp

/-- C6: a bearer token whose unpadded base64url payload segment decodes to
the JSON object with `sub` `u1`, `cognito:username` `alice` and `email`
`a@x.com` yields exactly that identity triple; and every request whose
Authorization header is missing or malformed, or whose token payload does
not decode, yields the anonymous identity triple (extraction is total, so
it never raises). -/
theorem C6_jwt_identity_extraction :
    (Jwt.extract_user_details [("Authorization", "Bearer " ++ Jwt.c6Token)] =
      { userId := "u1", username := "alice", email := "a@x.com" }) ∧
    ∀ headers, Jwt.authFailure headers = true →
      Jwt.extract_user_details headers = Jwt.anonymousUser := by
  constructor
  · decide
  · intro headers h
    unfold Jwt.authFailure at h
    unfold Jwt.extract_user_details
    cases hc : Jwt.tokenClaims headers with
    | none => rfl
    | some d =>
      rw [hc] at h
      exact absurd h (by simp)

/-- C6 witness: a non-bearer Authorization header yields the anonymous
identity. -/
theorem C6_jwt_identity_extraction_witness :
    Jwt.extract_user_details [("Authorization", "Basic xyz")] = Jwt.anonymousUser :=
  C6_jwt_identity_extraction.2 [("Authorization", "Basic xyz")] (by decide)

/-- C8 witness: the first attempt streams `"Hel"` and raises, the second
streams `"lo"` and succeeds; the response and the persisted item both read
`"Hello"`. -/
theorem C8_partial_chunks_accumulate_witness :
    (invoke_handler c5Env c5Event []).1 =
      .ok (String.join (rangeChunks c5Env 0 1 ++ ["lo"]))
        (rangeSteps c5Env 0 1 ++ ["answering"]) "sess-9" ∧
    (invoke_handler c5Env c5Event []).2 =
      [] ++ [{ userId := "anonymous"
               sessionId := "sess-9"
               userQuery := "What is the leave policy?"
               response := String.join (rangeChunks c5Env 0 1 ++ ["lo"])
               thinkingSteps := rangeSteps c5Env 0 1 ++ ["answering"] }] :=
  C8_partial_chunks_accumulate c5Env c5Event [] "What is the leave policy?"
    "ConversationTable" 1 ["lo"] ["answering"] rfl rfl (by decide) (by omega)
    (fun i hi => by
      have h0 : i = 0 := by omega
      subst h0
      rfl) rfl

end InvokeAgent

namespace ProcessUpload

/-- C7: a notification record whose key starts with `hr/` and whose folder
maps to a knowledge base with at least one data source starts exactly one
ingestion job against that knowledge base's first data source; a record
with an unmapped folder, or one whose knowledge base has no data source,
starts zero jobs; and a record that starts no jobs is skipped without
affecting the other records of the batch, the handler returning 200
always. -/
theorem C7_trigger_per_record :
    (∀ (env : TriggerEnv) (r : S3Record) (p : String) (ps : List String) (kb d : String)
       (ds : List String),
      Py.split r.key "/" = "hr" :: p :: ps →
      Eva.dictGet env.knowledgeBases "hr" = some kb → kb ≠ "" →
      env.dataSources kb = d :: ds →
      processRecord env r = [(kb, d)]) ∧
    (∀ (env : TriggerEnv) (r : S3Record) (f p : String) (ps : List String),
      Py.split r.key "/" = f :: p :: ps →
      Eva.dictGet env.knowledgeBases
        (if Py.lower f == "it_helpdesk" then "helpdesk" else Py.lower f) = none →
      processRecord env r = []) ∧
    (∀ (env : TriggerEnv) (r : S3Record) (f p : String) (ps : List String) (kb : String),
      Py.split r.key "/" = f :: p :: ps →
      Eva.dictGet env.knowledgeBases
        (if Py.lower f == "it_helpdesk" then "helpdesk" else Py.lower f) = some kb →
      kb ≠ "" → env.dataSources kb = [] →
      processRecord env r = []) ∧
    (∀ (env : TriggerEnv) (rs1 rs2 : List S3Record) (r : S3Record),
      processRecord env r = [] →
      upload_trigger_handler env (rs1 ++ r :: rs2) =
        ((200, "Processing complete"), (upload_trigger_handler env (rs1 ++ rs2)).2)) := by
  refine ⟨?_, ?_, ?_, ?_⟩
  · intro env r p ps kb d ds hsplit hkb hne hds
    have hlow : Py.lower "hr" = "hr" := by decide
    have hhd : ("hr" == "it_helpdesk") = false := by decide
    have hkbne : (kb == "") = false := by simpa using hne
    unfold processRecord
    rw [hsplit]
    simp only [List.length_cons, List.headD_cons, hlow, hhd, Bool.false_eq_true, if_false]
    rw [if_neg (by omega)]
    rw [hkb]
    dsimp only
    rw [hkbne]
    simp only [Bool.false_eq_true, if_false]
    rw [hds]
  · intro env r f p ps hsplit hkb
    unfold processRecord
    rw [hsplit]
    simp only [List.length_cons, List.headD_cons]
    rw [if_neg (by omega)]
    rw [hkb]
  · intro env r f p ps kb hsplit hkb hne hds
    have hkbne : (kb == "") = false := by simpa using hne
    unfold processRecord
    rw [hsplit]
    simp only [List.length_cons, List.headD_cons]
    rw [if_neg (by omega)]
    rw [hkb]
    dsimp only
    rw [hkbne]
    simp only [Bool.false_eq_true, if_false]
    rw [hds]
  · intro env rs1 rs2 r h
    unfold upload_trigger_handler
    simp [List.flatMap_append, List.flatMap_cons, h]

/-- C7 witness: one mapped `hr/` record starting one job, one unmapped
record starting none, and the skipped record not disturbing the batch. -/
theorem C7_trigger_per_record_witness :
    processRecord c7Env { bucket := "b", key := "hr/policy.pdf" } = [("KB1", "DS1")] ∧
    processRecord c7Env { bucket := "b", key := "finance/doc.pdf" } = [] ∧
    upload_trigger_handler c7Env
        [{ bucket := "b", key := "hr/policy.pdf" }, { bucket := "b", key := "finance/doc.pdf" }] =
      ((200, "Processing complete"),
        (upload_trigger_handler c7Env [{ bucket := "b", key := "hr/policy.pdf" }]).2) := by
  refine ⟨?_, ?_, ?_⟩
  · exact C7_trigger_per_record.1 c7Env _ "policy.pdf" [] "KB1" "DS1" [] (by decide) (by decide)
      (by decide) (by decide)
  · exact C7_trigger_per_record.2.1 c7Env _ "finance" "doc.pdf" [] (by decide) (by decide)
  · exact C7_trigger_per_record.2.2.2 c7Env [{ bucket := "b", key := "hr/policy.pdf" }] []
      { bucket := "b", key := "finance/doc.pdf" }
      (C7_trigger_per_record.2.1 c7Env _ "finance" "doc.pdf" [] (by decide) (by decide))

end ProcessUpload

namespace UploadFiles

theorem processFile_none_of_invalid {folder : String} {f : UploadFile}
    (h : matchesUploadPattern f.name = false) : processFile folder f = none := by
  unfold processFile
  rw [h]
  rfl

theorem processFile_some {folder : String} {f : UploadFile} {w : S3Write} {n : String}
    (h : processFile folder f = some (w, n)) :
    matchesUploadPattern f.name = true ∧ w.key = folder ++ "/" ++ f.name := by
  unfold processFile at h
  cases hm : matchesUploadPattern f.name with
  | false => rw [hm] at h; exact Option.noConfusion h
  | true =>
    rw [hm] at h
    simp only [Bool.not_true, Bool.false_eq_true, if_false] at h
    refine ⟨rfl, ?_⟩
    split at h
    · exact Option.noConfusion h
    · have hp := Option.some.inj h
      rw [Prod.mk.injEq] at hp
      rw [← hp.1]

/-- C9: every object the upload handler writes has key
`<folder>/<file_name>` with the normalised folder in the allowed set and
the file name matching the validation pattern; and a request in which no
file passes validation yields a 400 response with zero objects written. -/
theorem C9_upload_key_validation :
    (∀ (ev : UploadEvent) (w : S3Write), w ∈ (upload_handler ev).2 →
      ∃ body f, ev.body = some body ∧ f ∈ body.files ∧
        matchesUploadPattern f.name = true ∧
        allowedFolders.contains (normalizeFolder body.folder) = true ∧
        w.key = normalizeFolder body.folder ++ "/" ++ f.name) ∧
    (∀ ev : UploadEvent,
      (∀ body, ev.body = some body → ∀ f ∈ body.files, matchesUploadPattern f.name = false) →
      (upload_handler ev).1.statusCode = 400 ∧ (upload_handler ev).2 = []) := by
  constructor
  · intro ev w hw
    unfold upload_handler at hw
    cases hb : ev.body with
    | none => rw [hb] at hw; exact absurd hw (by simp)
    | some body =>
      rw [hb] at hw
      dsimp only at hw
      split at hw
      · exact absurd hw (by simp)
      · split at hw
        · exact absurd hw (by simp)
        · split at hw
          · exact absurd hw (by simp)
          · rename_i hfolderb _
            have hcont : allowedFolders.contains (normalizeFolder body.folder) = true := by
              simpa using hfolderb
            have hwrites : w ∈ (body.files.filterMap (processFile (normalizeFolder body.folder))).map
                (fun p => p.1) := by
              split at hw
              · exact hw
              · exact hw
            rw [List.mem_map] at hwrites
            obtain ⟨⟨w', n⟩, hres, hmapeq⟩ := hwrites
            rw [List.mem_filterMap] at hres
            obtain ⟨f, hf, hproc⟩ := hres
            obtain ⟨hpat, hkey⟩ := processFile_some hproc
            refine ⟨body, f, rfl, hf, hpat, hcont, ?_⟩
            · rw [← hmapeq]
              exact hkey
  · intro ev hval
    unfold upload_handler
    cases hb : ev.body with
    | none => exact ⟨rfl, rfl⟩
    | some body =>
      dsimp only
      split
      · exact ⟨rfl, rfl⟩
      · split
        · exact ⟨rfl, rfl⟩
        · split
          · exact ⟨rfl, rfl⟩
          · have hnone : body.files.filterMap (processFile (normalizeFolder body.folder)) = [] := by
              rw [List.filterMap_eq_nil_iff]
              intro f hf
              exact processFile_none_of_invalid (hval body hb f hf)
            rw [hnone]
            simp

/-- C9 witness: the valid `policy.pdf` write satisfies the key invariant,
and the request whose only file is `malware.exe` yields 400 with zero
writes. -/
theorem C9_upload_key_validation_witness :
    (∃ body f, c9Event.body = some body ∧ f ∈ body.files ∧
      matchesUploadPattern f.name = true ∧
      allowedFolders.contains (normalizeFolder body.folder) = true ∧
      ({ key := "hr/policy.pdf", bytes := [65, 66, 67] } : S3Write).key =
        normalizeFolder body.folder ++ "/" ++ f.name) ∧
    (upload_handler c9BadEvent).1.statusCode = 400 ∧ (upload_handler c9BadEvent).2 = [] := by
  constructor
  · exact C9_upload_key_validation.1 c9Event
      { key := "hr/policy.pdf", bytes := [65, 66, 67] } (by decide)
  · refine C9_upload_key_validation.2 c9BadEvent ?_
    intro body hb f hf
    have hb' := Option.some.inj hb
    rw [← hb'] at hf
    simp only [List.mem_singleton] at hf
    rw [hf]
    decide

end UploadFiles

namespace GetMessages

/-- C10: for a request with a session id and a configured table, the
handler returns 200 and every message in the response comes from a stored
item of that session whose `userId` equals the caller's extracted user id;
items of other users are filtered out. -/
theorem C10_messages_user_isolation (env : MessagesEnv) (ev : MessagesEvent) (s tbl : String)
    (hs : Eva.dictGet ev.pathParameters "sessionId" = some s) (hne : s ≠ "")
    (htbl : env.table = some tbl) :
    (messages_handler env ev).statusCode = 200 ∧
    ∀ m ∈ (messages_handler env ev).messages,
      ∃ it ∈ env.items, it.sessionId = s ∧
        it.userId = (Jwt.extract_user_details ev.headers).userId ∧ m = formatItem it := by
  have hbeq : (s == "") = false := by simpa using hne
  unfold messages_handler
  simp only [hs, htbl, hbeq, Bool.false_eq_true, if_false]
  constructor
  · trivial
  · intro m hm
    simp only [queryBySession, List.mem_map, List.mem_filter] at hm
    obtain ⟨it, ⟨⟨hmem, hsid⟩, huid⟩, hfmt⟩ := hm
    exact ⟨it, hmem, by simpa using hsid, by simpa using huid, hfmt.symm⟩

/-- C10 witness: of two stored items for session `sess-9`, only those of the
anonymous caller's user id survive (here: none, since both belong to `u1`
and `u2`). -/
theorem C10_messages_user_isolation_witness :
    (messages_handler c10Env c10Event).statusCode = 200 ∧
    ∀ m ∈ (messages_handler c10Env c10Event).messages,
      ∃ it ∈ c10Env.items, it.sessionId = "sess-9" ∧
        it.userId = (Jwt.extract_user_details c10Event.headers).userId ∧ m = formatItem it :=
  C10_messages_user_isolation c10Env c10Event "sess-9" "ConversationTable"
    (by decide) (by decide) rfl

end GetMessages
